import Mathlib

/-!
Shallow embedding of the reprox reverse-proxy dispatcher (package `reprox`,
file `proxyhandler` — src/unnamed/part_000) and of the server lifecycle
manager (`app/reverseProxy.go`), together with proofs of the specification
claims about them.

Conventions:
* Go's `map[string]tDestination` is embedded as an association list with
  first-match lookup and replace-first insert, which matches the value
  semantics of the Go map operations used by the code (read `m[k]`,
  write `m[k] = v`).
* The external call `url.ParseRequestURI` (net/url) is a parameter
  `parse : String → Option Url` of the embedded functions; theorems
  quantify over it.
* The external constructor `httputil.NewSingleHostReverseProxy` is embedded
  as building a `ReverseProxy` value carrying its target URL and a fresh
  construction identifier drawn from a counter threaded through the state;
  the counter counts handle constructions and distinguishes handle objects.
-/

/-- A parsed URL, the result of `url.ParseRequestURI`. -/
structure Url where
  raw : String
deriving DecidableEq, Repr

/-- A forwarding handle (`*httputil.ReverseProxy`): bound to its target URL,
with a construction identifier distinguishing separately constructed
handles (Go pointer identity). -/
structure ReverseProxy where
  target : Url
  ctorId : Nat
deriving DecidableEq, Repr

/-- `tDestination` from part_000 lines 22-25: backend URL string and the
lazily created proxy handle. -/
structure tDestination where
  destHost : String
  destProxy : Option ReverseProxy
deriving DecidableEq, Repr

/-- `tBackendServers` from part_000 line 28: map from host key to
destination, embedded as an association list. -/
abbrev tBackendServers := List (String × tDestination)

/-- Go map read `m[k]`: first binding of the key, if any. -/
def lookupHost (m : tBackendServers) (h : String) : Option tDestination :=
  match m with
  | [] => none
  | (k, d) :: rest => if k = h then some d else lookupHost rest h

/-- Go map write `m[k] = v`: replace the first binding of the key, or
append a new binding. -/
def insertHost (m : tBackendServers) (h : String) (d : tDestination) : tBackendServers :=
  match m with
  | [] => [(h, d)]
  | (k, d0) :: rest => if k = h then (h, d) :: rest else (k, d0) :: insertHost rest h d

/-- `initBackendList()` from part_000 lines 89-101: the default backend map. -/
def initBackendList : tBackendServers :=
  [ ("bla.mwat.de", ⟨"http://192.168.192.236:8181", none⟩),
    ("bla.mwat.de:80", ⟨"http://192.168.192.236:8181", none⟩),
    ("bla.mwat.de:443", ⟨"http://192.168.192.236:8181", none⟩),
    ("read.mwat.de", ⟨"http://192.168.192.236:8383", none⟩),
    ("read.mwat.de:80", ⟨"http://192.168.192.236:8383", none⟩),
    ("read.mwat.de:443", ⟨"http://192.168.192.236:8383", none⟩) ]

/-- `createReverseProxy()` from part_000 lines 51-65.  Takes the parse
function standing for `url.ParseRequestURI`, the current construction
counter, and the destination; returns the Go result (handle or error)
together with the updated construction counter. -/
def createReverseProxy (parse : String → Option Url) (fresh : Nat)
    (aDestination : tDestination) : Except Unit ReverseProxy × Nat :=
  match aDestination.destProxy with
  | some p => (Except.ok p, fresh)
  | none =>
    match parse aDestination.destHost with
    | none => (Except.error (), fresh)
    | some targetURL => (Except.ok ⟨targetURL, fresh⟩, fresh + 1)

/-- The observable outcome of one `ServeHTTP` call: an HTTP error response
written via `http.Error` (status code and body), or the request delegated
to a forwarding handle (`proxy.ServeHTTP`). -/
inductive Response where
  | httpError (status : Nat) (msg : String)
  | proxied (handle : ReverseProxy)
deriving DecidableEq, Repr

/-- The 404 body built at part_000 line 115: `Backend server %q not found`. -/
def notFoundMsg (host : String) : String :=
  "Backend server \x22" ++ host ++ "\x22 not found"

/-- The mutable state touched by `ServeHTTP`: the handler's
`backendServers` map, plus the construction counter of the embedding. -/
structure ServeState where
  backendServers : tBackendServers
  fresh : Nat
deriving DecidableEq, Repr

/-- `TProxyHandler.ServeHTTP()` from part_000 lines 111-138, as one atomic
(sequential) execution: look up the request host, 404 if absent, build or
reuse the proxy handle (500 on URL parse failure), store the destination
back into the map, and delegate to the handle. -/
def ServeHTTP (parse : String → Option Url) (s : ServeState) (host : String) :
    Response × ServeState :=
  match lookupHost s.backendServers host with
  | none => (Response.httpError 404 (notFoundMsg host), s)
  | some target =>
    match createReverseProxy parse s.fresh target with
    | (Except.error _, fresh') =>
      (Response.httpError 500 "Internal Server Error", { s with fresh := fresh' })
    | (Except.ok proxy, fresh') =>
      (Response.proxied proxy,
        { backendServers :=
            insertHost s.backendServers host { target with destProxy := some proxy },
          fresh := fresh' })

/-- A concrete parse function used for evaluating the model on concrete
inputs: accepts absolute http(s) URLs, as `url.ParseRequestURI` does on
the URL strings occurring in this repository. -/
def demoParse (s : String) : Option Url :=
  if s.data.take 7 = "http://".data || s.data.take 8 = "https://".data
  then some ⟨s⟩ else none

/-!
Interleaved execution of `ServeHTTP` (for the concurrency claims).

`ServeHTTP` touches shared state at exactly two points: the map read at
part_000 line 113 (which copies the destination value into the local
`target`) and the map write at line 134.  The `destProxy` nil check at
line 52 and the handle construction at lines 57-64 operate on the local
copy only.  The function therefore decomposes into three shared-state
steps per request, and two concurrently running calls are an arbitrary
interleaving of those steps.  The code contains no lock, mutex or
single-flight group: nothing prevents two calls from both passing the
read phase before either reaches the write phase.
-/

/-- Progress of one in-flight `ServeHTTP` call through its shared-state
steps. -/
inductive ThreadPhase where
  | start
  | gotTarget (target : tDestination)
  | gotProxy (target : tDestination) (proxy : ReverseProxy)
  | finished (resp : Response)
deriving DecidableEq, Repr

/-- One shared-state step of an in-flight `ServeHTTP` call:
`start` performs the map read of line 113 (404 on a miss);
`gotTarget` runs `createReverseProxy` on the local copy (500 on parse
failure); `gotProxy` performs the map write of lines 133-134 and then
delegates to the handle. -/
def stepThread (parse : String → Option Url) (host : String)
    (s : ServeState) (ph : ThreadPhase) : ServeState × ThreadPhase :=
  match ph with
  | ThreadPhase.start =>
    match lookupHost s.backendServers host with
    | none => (s, ThreadPhase.finished (Response.httpError 404 (notFoundMsg host)))
    | some target => (s, ThreadPhase.gotTarget target)
  | ThreadPhase.gotTarget target =>
    match createReverseProxy parse s.fresh target with
    | (Except.error _, fresh') =>
      ({ s with fresh := fresh' },
        ThreadPhase.finished (Response.httpError 500 "Internal Server Error"))
    | (Except.ok proxy, fresh') =>
      ({ s with fresh := fresh' }, ThreadPhase.gotProxy target proxy)
  | ThreadPhase.gotProxy target proxy =>
    ({ s with backendServers :=
        insertHost s.backendServers host { target with destProxy := some proxy } },
      ThreadPhase.finished (Response.proxied proxy))
  | ThreadPhase.finished r => (s, ThreadPhase.finished r)

/-- Two concurrent `ServeHTTP` calls over the shared state. -/
structure TwoThreads where
  st : ServeState
  ph1 : ThreadPhase
  ph2 : ThreadPhase
deriving DecidableEq, Repr

/-- Run one scheduler step: `true` advances the first call, `false` the
second. -/
def stepSched (parse : String → Option Url) (host1 host2 : String)
    (t : TwoThreads) (pick : Bool) : TwoThreads :=
  if pick then
    let r := stepThread parse host1 t.st t.ph1
    ⟨r.1, r.2, t.ph2⟩
  else
    let r := stepThread parse host2 t.st t.ph2
    ⟨r.1, t.ph1, r.2⟩

/-- Run a whole schedule of interleaved steps. -/
def runSched (parse : String → Option Url) (host1 host2 : String)
    (sched : List Bool) (t : TwoThreads) : TwoThreads :=
  sched.foldl (stepSched parse host1 host2) t

/-!
Server lifecycle manager (`app/reverseProxy.go`).
-/

/-- TLS protocol version constants (crypto/tls numeric values). -/
def versionTLS10 : Nat := 769

/-- TLS 1.1 protocol version constant. -/
def versionTLS11 : Nat := 770

/-- TLS 1.2 protocol version constant. -/
def versionTLS12 : Nat := 771

/-- TLS 1.3 protocol version constant. -/
def versionTLS13 : Nat := 772

/-- The cipher suites named by `createServer443` (reverseProxy.go lines
121-144), one constructor per crypto/tls constant used there. -/
inductive CipherSuite where
  | TLS_ECDHE_RSA_WITH_CHACHA20_POLY1305_SHA256
  | TLS_ECDHE_ECDSA_WITH_AES_256_GCM_SHA384
  | TLS_ECDHE_RSA_WITH_AES_256_GCM_SHA384
  | TLS_ECDHE_ECDSA_WITH_AES_128_GCM_SHA256
  | TLS_ECDHE_RSA_WITH_AES_128_GCM_SHA256
  | TLS_ECDHE_RSA_WITH_AES_128_CBC_SHA256
  | TLS_ECDHE_ECDSA_WITH_AES_128_CBC_SHA256
  | TLS_ECDHE_RSA_WITH_AES_256_CBC_SHA
  | TLS_ECDHE_RSA_WITH_AES_128_CBC_SHA
  | TLS_ECDHE_RSA_WITH_3DES_EDE_CBC_SHA
  | TLS_ECDHE_RSA_WITH_RC4_128_SHA
  | TLS_ECDHE_ECDSA_WITH_AES_256_CBC_SHA
  | TLS_ECDHE_ECDSA_WITH_AES_128_CBC_SHA
  | TLS_ECDHE_ECDSA_WITH_RC4_128_SHA
  | TLS_RSA_WITH_AES_256_GCM_SHA384
  | TLS_RSA_WITH_AES_128_GCM_SHA256
  | TLS_RSA_WITH_AES_128_CBC_SHA256
  | TLS_RSA_WITH_AES_256_CBC_SHA
  | TLS_RSA_WITH_AES_128_CBC_SHA
  | TLS_RSA_WITH_3DES_EDE_CBC_SHA
  | TLS_RSA_WITH_RC4_128_SHA
  | TLS_ECDHE_ECDSA_WITH_CHACHA20_POLY1305_SHA256
deriving DecidableEq, Repr

namespace CipherSuite

/-- A suite using an authenticated-encryption bulk cipher (AES-GCM or
ChaCha20-Poly1305), read off the suite name. -/
def isAEAD : CipherSuite → Bool
  | TLS_ECDHE_RSA_WITH_CHACHA20_POLY1305_SHA256 => true
  | TLS_ECDHE_ECDSA_WITH_AES_256_GCM_SHA384 => true
  | TLS_ECDHE_RSA_WITH_AES_256_GCM_SHA384 => true
  | TLS_ECDHE_ECDSA_WITH_AES_128_GCM_SHA256 => true
  | TLS_ECDHE_RSA_WITH_AES_128_GCM_SHA256 => true
  | TLS_RSA_WITH_AES_256_GCM_SHA384 => true
  | TLS_RSA_WITH_AES_128_GCM_SHA256 => true
  | TLS_ECDHE_ECDSA_WITH_CHACHA20_POLY1305_SHA256 => true
  | _ => false

/-- A suite using the RC4 stream cipher. -/
def isRC4 : CipherSuite → Bool
  | TLS_ECDHE_RSA_WITH_RC4_128_SHA => true
  | TLS_ECDHE_ECDSA_WITH_RC4_128_SHA => true
  | TLS_RSA_WITH_RC4_128_SHA => true
  | _ => false

/-- A suite using triple DES. -/
def is3DES : CipherSuite → Bool
  | TLS_ECDHE_RSA_WITH_3DES_EDE_CBC_SHA => true
  | TLS_RSA_WITH_3DES_EDE_CBC_SHA => true
  | _ => false

/-- A suite using a CBC-mode bulk cipher. -/
def isCBC : CipherSuite → Bool
  | TLS_ECDHE_RSA_WITH_AES_128_CBC_SHA256 => true
  | TLS_ECDHE_ECDSA_WITH_AES_128_CBC_SHA256 => true
  | TLS_ECDHE_RSA_WITH_AES_256_CBC_SHA => true
  | TLS_ECDHE_RSA_WITH_AES_128_CBC_SHA => true
  | TLS_ECDHE_RSA_WITH_3DES_EDE_CBC_SHA => true
  | TLS_ECDHE_ECDSA_WITH_AES_256_CBC_SHA => true
  | TLS_ECDHE_ECDSA_WITH_AES_128_CBC_SHA => true
  | TLS_RSA_WITH_AES_128_CBC_SHA256 => true
  | TLS_RSA_WITH_AES_256_CBC_SHA => true
  | TLS_RSA_WITH_AES_128_CBC_SHA => true
  | TLS_RSA_WITH_3DES_EDE_CBC_SHA => true
  | _ => false

/-- A legacy compatibility-only suite in the claim's sense: RC4, 3DES or
CBC. -/
def isLegacy (c : CipherSuite) : Bool :=
  c.isRC4 || c.is3DES || c.isCBC

end CipherSuite

/-- The relevant fields of the `tls.Config` literal built by
`createServer443`. -/
structure TLSConfig where
  maxVersion : Nat
  minVersion : Nat
  preferServerCipherSuites : Bool
  cipherSuites : List CipherSuite
deriving DecidableEq, Repr

/-- The TLS configuration installed by `createServer443` (reverseProxy.go
lines 117-145), with the cipher suites in the exact source order. -/
def createServer443TLSConfig : TLSConfig :=
  { maxVersion := versionTLS12,
    minVersion := versionTLS10,
    preferServerCipherSuites := true,
    cipherSuites :=
      [ CipherSuite.TLS_ECDHE_RSA_WITH_CHACHA20_POLY1305_SHA256,
        CipherSuite.TLS_ECDHE_ECDSA_WITH_AES_256_GCM_SHA384,
        CipherSuite.TLS_ECDHE_RSA_WITH_AES_256_GCM_SHA384,
        CipherSuite.TLS_ECDHE_ECDSA_WITH_AES_128_GCM_SHA256,
        CipherSuite.TLS_ECDHE_RSA_WITH_AES_128_GCM_SHA256,
        CipherSuite.TLS_ECDHE_RSA_WITH_AES_128_CBC_SHA256,
        CipherSuite.TLS_ECDHE_ECDSA_WITH_AES_128_CBC_SHA256,
        CipherSuite.TLS_ECDHE_RSA_WITH_AES_256_CBC_SHA,
        CipherSuite.TLS_ECDHE_RSA_WITH_AES_128_CBC_SHA,
        CipherSuite.TLS_ECDHE_RSA_WITH_3DES_EDE_CBC_SHA,
        CipherSuite.TLS_ECDHE_RSA_WITH_RC4_128_SHA,
        CipherSuite.TLS_ECDHE_ECDSA_WITH_AES_256_CBC_SHA,
        CipherSuite.TLS_ECDHE_ECDSA_WITH_AES_128_CBC_SHA,
        CipherSuite.TLS_ECDHE_ECDSA_WITH_RC4_128_SHA,
        CipherSuite.TLS_RSA_WITH_AES_256_GCM_SHA384,
        CipherSuite.TLS_RSA_WITH_AES_128_GCM_SHA256,
        CipherSuite.TLS_RSA_WITH_AES_128_CBC_SHA256,
        CipherSuite.TLS_RSA_WITH_AES_256_CBC_SHA,
        CipherSuite.TLS_RSA_WITH_AES_128_CBC_SHA,
        CipherSuite.TLS_RSA_WITH_3DES_EDE_CBC_SHA,
        CipherSuite.TLS_RSA_WITH_RC4_128_SHA,
        CipherSuite.TLS_ECDHE_ECDSA_WITH_CHACHA20_POLY1305_SHA256 ] }

/-- The ordering property asserted by the spec for the cipher-suite
allowlist: every strong authenticated-encryption suite is ordered before
every legacy (RC4/3DES/CBC) suite. -/
def aeadBeforeLegacy (suites : List CipherSuite) : Prop :=
  ∀ i j : Fin suites.length,
    (suites.get i).isAEAD = true → (suites.get j).isLegacy = true → i.val < j.val

instance (suites : List CipherSuite) : Decidable (aeadBeforeLegacy suites) := by
  unfold aeadBeforeLegacy
  infer_instance

/-- The POSIX signals relevant to `setupSignals` (reverseProxy.go lines
186-197); `sighup`, `sigusr1` and `sigquit` stand for the signals the
program does not subscribe to. -/
inductive OsSignal where
  | sigint
  | sigterm
  | sighup
  | sigusr1
  | sigquit
deriving DecidableEq, Repr

/-- The subscription installed by `signal.Notify(c, syscall.SIGINT,
syscall.SIGTERM)` at line 189: only these two signals are delivered to
the channel. -/
def notifiedSignal : OsSignal → Bool
  | OsSignal.sigint => true
  | OsSignal.sigterm => true
  | _ => false

/-- The signal the shutdown goroutine's `for signal := range c` loop
(lines 192-197) reacts to: the first delivered process signal that the
subscription lets through; `none` if no subscribed signal is ever
delivered (the goroutine then blocks forever). -/
def firstCaughtSignal (delivered : List OsSignal) : Option OsSignal :=
  delivered.find? notifiedSignal

/-- The drain deadline from `context.WithTimeout(context.Background(),
time.Second*10)` at lines 205-208, in seconds. -/
def drainDeadlineSeconds : Nat := 10

/-- Lifecycle phases of a listener (spec section 4.4); `created` is before
`ListenAndServe`, which is outside `setupSignals`. -/
inductive ServerPhase where
  | listening
  | draining
  | closed
deriving DecidableEq, Repr

/-- The phase the server reaches given the process signals delivered while
it is listening: `aServer.Shutdown` (line 210) is called — entering the
draining phase — exactly when the subscription lets a signal through. -/
def phaseOnSignals (delivered : List OsSignal) : ServerPhase :=
  match firstCaughtSignal delivered with
  | none => ServerPhase.listening
  | some _ => ServerPhase.draining

/-- `aServer.Shutdown(ctxTimeout)` semantics with the ten-second context
(net/http contract of `Shutdown`, invoked at line 210): returns when all
in-flight requests have finished or the context deadline elapses,
whichever comes first.  Given the time (in seconds) at which the last
in-flight request would finish, this is the time at which the draining
phase ends. -/
def drainCloseTime (tAllIdle : Nat) : Nat :=
  min tAllIdle drainDeadlineSeconds

/-- Whether the drain deadline elapsed before the in-flight requests
finished: then `Shutdown` returns a deadline error, the handler calls
`exit` (lines 210-212) and the process terminates, forcibly ending the
requests still in flight. -/
def drainForced (tAllIdle : Nat) : Bool :=
  decide (drainDeadlineSeconds < tAllIdle)

/-- `Shutdown`'s error result at line 210: a deadline error exactly when
the in-flight requests outlast the ten-second drain window. -/
def shutdownResult (tAllIdle : Nat) : Option String :=
  if drainDeadlineSeconds < tAllIdle then some "context deadline exceeded" else none

/-- Observable side effects of the lifecycle code: a log line through
`apachelogger.Err`, a log line through the standard logger, and process
termination. -/
inductive Effect where
  | apacheErr (component msg : String)
  | stdLog (msg : String)
  | processExit
deriving DecidableEq, Repr

/-- `exit()` from reverseProxy.go lines 173-177: logs `aMessage` via
`apachelogger.Err("ReProx/main", ...)`, then `log.Fatalln(aMessage)`
prints it and terminates the process. -/
def exitEffects (aMessage : String) : List Effect :=
  [ Effect.apacheErr "ReProx/main" aMessage,
    Effect.stdLog aMessage,
    Effect.processExit ]

/-- The tail of the shutdown goroutine (lines 210-212): if
`aServer.Shutdown` returned an error, call
`exit(fmt.Sprintf("%s: %v", gMe, err))`; otherwise the goroutine ends
with no further effect (the process then exits through `main`'s `exit`
call when `ListenAndServe` returns `ErrServerClosed`).  `me` is the
program name `gMe`. -/
def afterShutdown (me : String) (shutdownErr : Option String) : List Effect :=
  match shutdownErr with
  | some e => exitEffects (me ++ ": " ++ e)
  | none => []

/-!
Helper lemmas about the association-list map.
-/

theorem lookupHost_insert_self (m : tBackendServers) (h : String) (d : tDestination) :
    lookupHost (insertHost m h d) h = some d := by
  induction m with
  | nil => simp [insertHost, lookupHost]
  | cons kv rest ih =>
    obtain ⟨k, d0⟩ := kv
    by_cases hk : k = h
    · simp [insertHost, lookupHost, hk]
    · simp [insertHost, lookupHost, hk, ih]

theorem lookupHost_insert_ne (m : tBackendServers) (h k : String) (d : tDestination)
    (hne : k ≠ h) : lookupHost (insertHost m h d) k = lookupHost m k := by
  induction m with
  | nil => simp [insertHost, lookupHost, Ne.symm hne]
  | cons kv rest ih =>
    obtain ⟨k0, d0⟩ := kv
    by_cases hk : k0 = h
    · subst hk
      simp [insertHost, lookupHost, Ne.symm hne]
    · simp [insertHost, lookupHost, hk, ih]

theorem insertHost_lookup_eq (m : tBackendServers) (h : String) (d : tDestination)
    (hl : lookupHost m h = some d) : insertHost m h d = m := by
  induction m with
  | nil => simp [lookupHost] at hl
  | cons kv rest ih =>
    obtain ⟨k, d0⟩ := kv
    by_cases hk : k = h
    · subst hk
      simp [lookupHost] at hl
      simp [insertHost, hl]
    · simp [lookupHost, hk] at hl
      simp [insertHost, hk, ih hl]

theorem insertHost_keys (m : tBackendServers) (h : String) (d : tDestination)
    (hl : (lookupHost m h).isSome) :
    (insertHost m h d).map Prod.fst = m.map Prod.fst := by
  induction m with
  | nil => simp [lookupHost] at hl
  | cons kv rest ih =>
    obtain ⟨k, d0⟩ := kv
    by_cases hk : k = h
    · simp [insertHost, hk]
    · simp [lookupHost, hk] at hl
      simp [insertHost, hk, ih hl]

/-!
Claim theorems.
-/

/-- C10: `createReverseProxy` returns an error if and only if the
destination's `destProxy` is nil and its `destHost` fails to parse; when
`destProxy` is already non-nil it returns that handle with no error,
without consulting the parse function at all — a cached handle's backend
URL is never re-validated. -/
theorem createReverseProxy_error_iff (parse : String → Option Url) (fresh : Nat)
    (d : tDestination) :
    ((createReverseProxy parse fresh d).1 = Except.error () ↔
      d.destProxy = none ∧ parse d.destHost = none) ∧
    (∀ p : ReverseProxy, d.destProxy = some p →
      createReverseProxy parse fresh d = (Except.ok p, fresh)) := by
  constructor
  · cases hd : d.destProxy with
    | some p => simp [createReverseProxy, hd]
    | none =>
      cases hp : parse d.destHost with
      | none => simp [createReverseProxy, hd, hp]
      | some u => simp [createReverseProxy, hd, hp]
  · intro p hp
    simp [createReverseProxy, hp]

/-- Witness for C10: with the cached handle present, the invalid backend
URL string is not re-validated and the cached handle is returned; with no
cached handle, the same invalid URL string yields the error. -/
theorem createReverseProxy_error_iff_witness :
    createReverseProxy demoParse 5
        ⟨"not a url", some ⟨⟨"http://b.example"⟩, 7⟩⟩ =
      (Except.ok ⟨⟨"http://b.example"⟩, 7⟩, 5) ∧
    (createReverseProxy demoParse 5 ⟨"not a url", none⟩).1 = Except.error () := by
  constructor
  · exact (createReverseProxy_error_iff demoParse 5
      ⟨"not a url", some ⟨⟨"http://b.example"⟩, 7⟩⟩).2 ⟨⟨"http://b.example"⟩, 7⟩ rfl
  · exact (createReverseProxy_error_iff demoParse 5
      ⟨"not a url", none⟩).1.mpr ⟨rfl, by decide⟩

/-- C3: for a request whose host is absent from the backend map,
`ServeHTTP` answers 404 with a body that reports the unmatched host, the
state is returned unchanged (so no handle is constructed), and the
request is not delegated to any forwarding handle (so no backend is
contacted). -/
theorem ServeHTTP_unknown_host_404 (parse : String → Option Url) (s : ServeState)
    (host : String) (h : lookupHost s.backendServers host = none) :
    ServeHTTP parse s host = (Response.httpError 404 (notFoundMsg host), s) ∧
    (∃ pre post, notFoundMsg host = pre ++ host ++ post) := by
  constructor
  · unfold ServeHTTP
    rw [h]
  · exact ⟨"Backend server \x22", "\x22 not found", rfl⟩

/-- Witness for C3: the host `nosuch.example` is not registered, and the
dispatcher answers 404 leaving the default map untouched. -/
theorem ServeHTTP_unknown_host_404_witness :
    ServeHTTP demoParse ⟨initBackendList, 0⟩ "nosuch.example" =
      (Response.httpError 404 (notFoundMsg "nosuch.example"), ⟨initBackendList, 0⟩) ∧
    (∃ pre post, notFoundMsg "nosuch.example" = pre ++ "nosuch.example" ++ post) :=
  ServeHTTP_unknown_host_404 demoParse ⟨initBackendList, 0⟩ "nosuch.example" (by decide)

/-- C9: whenever `ServeHTTP` produces an HTTP error response (404 for an
unknown host or 500 for a handle-construction failure), the backend map is
left exactly as it was before the request: nothing is added, removed or
modified on any error path. -/
theorem ServeHTTP_error_atomicity (parse : String → Option Url) (s : ServeState)
    (host : String) (status : Nat) (msg : String)
    (h : (ServeHTTP parse s host).1 = Response.httpError status msg) :
    (ServeHTTP parse s host).2 = s := by
  unfold ServeHTTP at h ⊢
  cases hl : lookupHost s.backendServers host with
  | none => rfl
  | some target =>
    rw [hl] at h
    cases hd : target.destProxy with
    | some p => simp [createReverseProxy, hd] at h
    | none =>
      cases hp : parse target.destHost with
      | none => simp [createReverseProxy, hd, hp]
      | some u => simp [createReverseProxy, hd, hp] at h

/-- Witness for C9: the 404 on an unknown host leaves the default state
unchanged. -/
theorem ServeHTTP_error_atomicity_witness :
    (ServeHTTP demoParse ⟨initBackendList, 0⟩ "nosuch.example").2 =
      (⟨initBackendList, 0⟩ : ServeState) :=
  ServeHTTP_error_atomicity demoParse ⟨initBackendList, 0⟩ "nosuch.example"
    404 (notFoundMsg "nosuch.example") (by decide)

/-- C7: if `aServer.Shutdown` returns an error during drain, the handler
runs `exit`: the error is logged through the apache logger with the
`ReProx/main` component tag (never silently swallowed) and the process
exit effect always follows — a shutdown error never prevents process
exit. -/
theorem afterShutdown_error_logged_and_exits (me e : String) :
    afterShutdown me (some e) = exitEffects (me ++ ": " ++ e) ∧
    Effect.apacheErr "ReProx/main" (me ++ ": " ++ e) ∈ afterShutdown me (some e) ∧
    Effect.processExit ∈ afterShutdown me (some e) := by
  refine ⟨rfl, ?_, ?_⟩ <;> simp [afterShutdown, exitEffects]

/-- C6 counterexample: the cipher-suite allowlist of `createServer443` does
NOT order all legacy (RC4/3DES/CBC) suites after all strong
authenticated-encryption suites: concretely, the list's final entry is
`TLS_ECDHE_ECDSA_WITH_CHACHA20_POLY1305_SHA256`, a strong AEAD suite,
placed after every RC4, 3DES and CBC entry (for instance after the RC4
suite at index 10), so the claimed ordering property fails. -/
theorem cipherSuites_legacy_not_last :
    ¬ aeadBeforeLegacy createServer443TLSConfig.cipherSuites ∧
    createServer443TLSConfig.cipherSuites.getLast? =
      some CipherSuite.TLS_ECDHE_ECDSA_WITH_CHACHA20_POLY1305_SHA256 ∧
    CipherSuite.TLS_ECDHE_ECDSA_WITH_CHACHA20_POLY1305_SHA256.isAEAD = true := by
  refine ⟨by decide, rfl, rfl⟩

/-- C6 amended: the secure listener's TLS configuration applies minimum
version TLS 1.0 and maximum version TLS 1.2, prefers the server's suite
order, and carries an explicit ordered 22-entry cipher-suite allowlist
whose leading five entries are all strong authenticated-encryption suites
with no legacy suite among them; the legacy (RC4/3DES/CBC) suites occupy
the middle of the list, but they are not ordered last: the final entry is
again a strong AEAD suite (ECDHE-ECDSA-ChaCha20-Poly1305). -/
theorem createServer443TLSConfig_spec :
    createServer443TLSConfig.minVersion = versionTLS10 ∧
    createServer443TLSConfig.maxVersion = versionTLS12 ∧
    createServer443TLSConfig.minVersion ≤ createServer443TLSConfig.maxVersion ∧
    createServer443TLSConfig.preferServerCipherSuites = true ∧
    createServer443TLSConfig.cipherSuites.length = 22 ∧
    (createServer443TLSConfig.cipherSuites.take 5).all CipherSuite.isAEAD = true ∧
    (createServer443TLSConfig.cipherSuites.take 5).all
      (fun c => !c.isLegacy) = true ∧
    (createServer443TLSConfig.cipherSuites.filter CipherSuite.isLegacy).length = 14 ∧
    createServer443TLSConfig.cipherSuites.getLast? =
      some CipherSuite.TLS_ECDHE_ECDSA_WITH_CHACHA20_POLY1305_SHA256 ∧
    CipherSuite.TLS_ECDHE_ECDSA_WITH_CHACHA20_POLY1305_SHA256.isAEAD = true := by
  decide

/-- C2: once a request for a host key has succeeded (its handle exists in
the map), any later sequential request for the same host key is served
through the identical handle and leaves the state — map and construction
counter — completely unchanged: the handle is returned and re-stored as
the very same object, and no new handle is constructed. -/
theorem ServeHTTP_cache_hit (parse : String → Option Url) (s : ServeState)
    (host : String) (dh : String) (q : ReverseProxy)
    (hmem : lookupHost s.backendServers host = some ⟨dh, some q⟩) :
    ServeHTTP parse s host = (Response.proxied q, s) := by
  unfold ServeHTTP
  rw [hmem]
  simp [createReverseProxy]
  rw [insertHost_lookup_eq s.backendServers host ⟨dh, some q⟩ hmem]

theorem ServeHTTP_cache_stable (parse : String → Option Url) (s : ServeState)
    (host : String) (p : ReverseProxy) (s1 : ServeState)
    (h1 : ServeHTTP parse s host = (Response.proxied p, s1)) :
    ServeHTTP parse s1 host = (Response.proxied p, s1) := by
  unfold ServeHTTP at h1
  cases hl : lookupHost s.backendServers host with
  | none =>
    rw [hl] at h1
    simp at h1
  | some target =>
    rw [hl] at h1
    obtain ⟨dh, dp⟩ := target
    cases dp with
    | some p0 =>
      simp [createReverseProxy] at h1
      obtain ⟨rfl, rfl⟩ := h1
      exact ServeHTTP_cache_hit parse _ host dh _ (lookupHost_insert_self _ _ _)
    | none =>
      cases hp : parse dh with
      | none => simp [createReverseProxy, hp] at h1
      | some u =>
        simp [createReverseProxy, hp] at h1
        obtain ⟨rfl, rfl⟩ := h1
        exact ServeHTTP_cache_hit parse _ host dh _ (lookupHost_insert_self _ _ _)

/-- Witness for C2: after the first successful request for
`bla.mwat.de` stores the handle with construction id 0, a second request
returns the same handle and leaves the state untouched. -/
theorem ServeHTTP_cache_stable_witness :
    ServeHTTP demoParse
      ⟨insertHost initBackendList "bla.mwat.de"
          ⟨"http://192.168.192.236:8181", some ⟨⟨"http://192.168.192.236:8181"⟩, 0⟩⟩, 1⟩
      "bla.mwat.de" =
    (Response.proxied ⟨⟨"http://192.168.192.236:8181"⟩, 0⟩,
      ⟨insertHost initBackendList "bla.mwat.de"
          ⟨"http://192.168.192.236:8181", some ⟨⟨"http://192.168.192.236:8181"⟩, 0⟩⟩, 1⟩) :=
  ServeHTTP_cache_stable demoParse ⟨initBackendList, 0⟩ "bla.mwat.de"
    ⟨⟨"http://192.168.192.236:8181"⟩, 0⟩
    ⟨insertHost initBackendList "bla.mwat.de"
        ⟨"http://192.168.192.236:8181", some ⟨⟨"http://192.168.192.236:8181"⟩, 0⟩⟩, 1⟩
    (by decide)

/-- C4: for a registered host whose configured backend URL neither has a
cached handle nor parses, the request gets a deterministic 500 response
and the state is unchanged; the embedding is a total function, so no
panic or crash is possible; and any other registered host whose backend
URL does parse is still served through a forwarding handle. -/
theorem ServeHTTP_bad_backend_url (parse : String → Option Url) (s : ServeState)
    (hBad hGood : String) (d dg : tDestination) (u : Url)
    (h1 : lookupHost s.backendServers hBad = some d)
    (h2 : d.destProxy = none)
    (h3 : parse d.destHost = none)
    (h4 : lookupHost s.backendServers hGood = some dg)
    (h5 : parse dg.destHost = some u) :
    ServeHTTP parse s hBad = (Response.httpError 500 "Internal Server Error", s) ∧
    (∃ q : ReverseProxy, (ServeHTTP parse s hGood).1 = Response.proxied q) := by
  constructor
  · unfold ServeHTTP
    rw [h1]
    simp [createReverseProxy, h2, h3]
  · unfold ServeHTTP
    rw [h4]
    cases hdg : dg.destProxy with
    | some q => exact ⟨q, by simp [createReverseProxy, hdg]⟩
    | none => exact ⟨⟨u, s.fresh⟩, by simp [createReverseProxy, hdg, h5]⟩

/-- Witness for C4: `bad.example` is configured with the unparsable
backend URL string `not a url` and answers 500 with the registry
untouched, while `good.example` is still proxied. -/
theorem ServeHTTP_bad_backend_url_witness :
    ServeHTTP demoParse
      ⟨[("bad.example", ⟨"not a url", none⟩),
        ("good.example", ⟨"http://10.0.0.2:9100", none⟩)], 0⟩ "bad.example" =
      (Response.httpError 500 "Internal Server Error",
        ⟨[("bad.example", ⟨"not a url", none⟩),
          ("good.example", ⟨"http://10.0.0.2:9100", none⟩)], 0⟩) ∧
    (∃ q : ReverseProxy,
      (ServeHTTP demoParse
        ⟨[("bad.example", ⟨"not a url", none⟩),
          ("good.example", ⟨"http://10.0.0.2:9100", none⟩)], 0⟩ "good.example").1 =
      Response.proxied q) :=
  ServeHTTP_bad_backend_url demoParse
    ⟨[("bad.example", ⟨"not a url", none⟩),
      ("good.example", ⟨"http://10.0.0.2:9100", none⟩)], 0⟩
    "bad.example" "good.example" ⟨"not a url", none⟩ ⟨"http://10.0.0.2:9100", none⟩
    ⟨"http://10.0.0.2:9100"⟩ (by decide) rfl (by decide) (by decide) (by decide)

/-- C8: one `ServeHTTP` call never changes the set of host keys and never
changes any destination's configured backend URL; and if the map value
changes at all, the change is exactly the attachment of a newly created
forwarding handle to the requested host's existing destination (which had
none before), everything else read-only. -/
theorem ServeHTTP_registry_frame (parse : String → Option Url) (s : ServeState)
    (host : String) :
    ((ServeHTTP parse s host).2.backendServers.map Prod.fst =
        s.backendServers.map Prod.fst) ∧
    (∀ k, (lookupHost (ServeHTTP parse s host).2.backendServers k).map
          tDestination.destHost =
        (lookupHost s.backendServers k).map tDestination.destHost) ∧
    ((ServeHTTP parse s host).2.backendServers ≠ s.backendServers →
      ∃ d u, lookupHost s.backendServers host = some d ∧ d.destProxy = none ∧
        parse d.destHost = some u ∧
        (ServeHTTP parse s host).2.backendServers =
          insertHost s.backendServers host ⟨d.destHost, some ⟨u, s.fresh⟩⟩ ∧
        lookupHost (ServeHTTP parse s host).2.backendServers host =
          some ⟨d.destHost, some ⟨u, s.fresh⟩⟩) := by
  cases hl : lookupHost s.backendServers host with
  | none =>
    have hS : ServeHTTP parse s host = (Response.httpError 404 (notFoundMsg host), s) := by
      unfold ServeHTTP
      rw [hl]
    rw [hS]
    exact ⟨rfl, fun k => rfl, fun hne => absurd rfl hne⟩
  | some target =>
    obtain ⟨dh, dp⟩ := target
    cases dp with
    | some p0 =>
      have hS : ServeHTTP parse s host = (Response.proxied p0, s) :=
        ServeHTTP_cache_hit parse s host dh p0 hl
      rw [hS]
      exact ⟨rfl, fun k => rfl, fun hne => absurd rfl hne⟩
    | none =>
      cases hp : parse dh with
      | none =>
        have hS : ServeHTTP parse s host =
            (Response.httpError 500 "Internal Server Error", s) := by
          unfold ServeHTTP
          rw [hl]
          simp [createReverseProxy, hp]
        rw [hS]
        exact ⟨rfl, fun k => rfl, fun hne => absurd rfl hne⟩
      | some u =>
        have hS : ServeHTTP parse s host =
            (Response.proxied ⟨u, s.fresh⟩,
              ⟨insertHost s.backendServers host ⟨dh, some ⟨u, s.fresh⟩⟩, s.fresh + 1⟩) := by
          unfold ServeHTTP
          rw [hl]
          simp [createReverseProxy, hp]
        rw [hS]
        refine ⟨?_, ?_, ?_⟩
        · exact insertHost_keys s.backendServers host _ (by rw [hl]; rfl)
        · intro k
          by_cases hk : k = host
          · subst hk
            rw [lookupHost_insert_self, hl]
            rfl
          · rw [lookupHost_insert_ne s.backendServers host k _ hk]
        · intro _
          exact ⟨⟨dh, none⟩, u, rfl, rfl, hp, rfl,
            lookupHost_insert_self s.backendServers host ⟨dh, some ⟨u, s.fresh⟩⟩⟩

/-- C5: the server leaves the listening phase for the draining phase when
and only when a delivered process signal is an interrupt or terminate
signal (the only ones `signal.Notify` subscribes to); the draining phase
ends at the earlier of the moment the in-flight requests finish and the
ten-second drain deadline; and when the deadline elapses first,
`Shutdown` returns a deadline error and the handler's `exit` call
terminates the process, forcibly ending the requests still in flight. -/
theorem lifecycle_drain_spec (me : String) (delivered : List OsSignal) (tAllIdle : Nat) :
    (phaseOnSignals delivered = ServerPhase.draining ↔
      ∃ sg ∈ delivered, sg = OsSignal.sigint ∨ sg = OsSignal.sigterm) ∧
    (tAllIdle ≤ drainDeadlineSeconds →
      drainCloseTime tAllIdle = tAllIdle ∧ drainForced tAllIdle = false) ∧
    (drainDeadlineSeconds < tAllIdle →
      drainCloseTime tAllIdle = drainDeadlineSeconds ∧ drainForced tAllIdle = true ∧
      Effect.processExit ∈ afterShutdown me (shutdownResult tAllIdle)) := by
  refine ⟨⟨?_, ?_⟩, ?_, ?_⟩
  · intro hph
    unfold phaseOnSignals at hph
    cases hf : firstCaughtSignal delivered with
    | none => rw [hf] at hph; simp at hph
    | some sg =>
      unfold firstCaughtSignal at hf
      have hmem := List.mem_of_find?_eq_some hf
      have hsg := List.find?_some hf
      refine ⟨sg, hmem, ?_⟩
      cases sg with
      | sigint => exact Or.inl rfl
      | sigterm => exact Or.inr rfl
      | sighup => simp [notifiedSignal] at hsg
      | sigusr1 => simp [notifiedSignal] at hsg
      | sigquit => simp [notifiedSignal] at hsg
  · rintro ⟨sg, hmem, hor⟩
    unfold phaseOnSignals
    cases hf : firstCaughtSignal delivered with
    | none =>
      unfold firstCaughtSignal at hf
      have hnone := List.find?_eq_none.mp hf sg hmem
      rcases hor with rfl | rfl <;> simp [notifiedSignal] at hnone
    | some _ => rfl
  · intro hle
    unfold drainCloseTime drainForced
    refine ⟨Nat.min_eq_left hle, ?_⟩
    simp [Nat.not_lt.mpr hle]
  · intro hlt
    refine ⟨?_, ?_, ?_⟩
    · exact Nat.min_eq_right (Nat.le_of_lt hlt)
    · simp [drainForced, hlt]
    · simp [shutdownResult, hlt, afterShutdown, exitEffects]

/-- The three shared-state steps of one `ServeHTTP` call, run without
interference from any other call, reproduce the atomic `ServeHTTP`
exactly: the interleaving model refines the sequential function. -/
theorem stepThread_run_eq_ServeHTTP (parse : String → Option Url) (s : ServeState)
    (host : String) :
    (let r1 := stepThread parse host s ThreadPhase.start
     let r2 := stepThread parse host r1.1 r1.2
     stepThread parse host r2.1 r2.2) =
      ((ServeHTTP parse s host).2, ThreadPhase.finished (ServeHTTP parse s host).1) := by
  cases hl : lookupHost s.backendServers host with
  | none => simp [stepThread, ServeHTTP, hl]
  | some target =>
    obtain ⟨dh, dp⟩ := target
    cases dp with
    | some p0 => simp [stepThread, ServeHTTP, hl, createReverseProxy]
    | none =>
      cases hp : parse dh with
      | none => simp [stepThread, ServeHTTP, hl, createReverseProxy, hp]
      | some u => simp [stepThread, ServeHTTP, hl, createReverseProxy, hp]

/-- C1 refutation: the code has no per-key synchronization, and the
interleaving in which both first-time requests for the registered,
previously-unseen host `bla.mwat.de` pass the map read of part_000 line
113 before either performs the map write of line 134 constructs TWO
forwarding handles (construction ids 0 and 1; the construction counter
ends at 2, not 1): the first request is served through handle 0, the
second through handle 1, and the registry afterwards holds only the
last-written handle 1 — so it is false that exactly one handle is
constructed and that all requests are served through that one handle. -/
theorem race_two_handles_constructed :
    (runSched demoParse "bla.mwat.de" "bla.mwat.de"
        [true, false, true, false, true, false]
        ⟨⟨initBackendList, 0⟩, ThreadPhase.start, ThreadPhase.start⟩).st.fresh = 2 ∧
    (runSched demoParse "bla.mwat.de" "bla.mwat.de"
        [true, false, true, false, true, false]
        ⟨⟨initBackendList, 0⟩, ThreadPhase.start, ThreadPhase.start⟩).ph1 =
      ThreadPhase.finished
        (Response.proxied ⟨⟨"http://192.168.192.236:8181"⟩, 0⟩) ∧
    (runSched demoParse "bla.mwat.de" "bla.mwat.de"
        [true, false, true, false, true, false]
        ⟨⟨initBackendList, 0⟩, ThreadPhase.start, ThreadPhase.start⟩).ph2 =
      ThreadPhase.finished
        (Response.proxied ⟨⟨"http://192.168.192.236:8181"⟩, 1⟩) ∧
    decide ((⟨⟨"http://192.168.192.236:8181"⟩, 0⟩ : ReverseProxy) =
      ⟨⟨"http://192.168.192.236:8181"⟩, 1⟩) = false ∧
    lookupHost (runSched demoParse "bla.mwat.de" "bla.mwat.de"
        [true, false, true, false, true, false]
        ⟨⟨initBackendList, 0⟩, ThreadPhase.start, ThreadPhase.start⟩).st.backendServers
        "bla.mwat.de" =
      some ⟨"http://192.168.192.236:8181",
        some ⟨⟨"http://192.168.192.236:8181"⟩, 1⟩⟩ := by
  refine ⟨by decide, by decide, by decide, by decide, by decide⟩
